import Mathlib

/-!
Verification of the WASM type-representation layer of `wasm2ir`
(`src/wasm/types.rs`): value-type categories, typed numeric wrappers,
the 128-bit SIMD value, and the descriptor types for globals, function
signatures and linear memories, together with the conversions from the
external parser's (`parity_wasm`) already-decoded element forms.

Modelling conventions:
- machine integers are `Nat` (all quantities here are unsigned and no
  arithmetic overflows occur in the modelled code);
- the `unreachable!()` abort branch of `ValueType::get_bytes` is modelled
  by returning `none`: `some w` is a normal return of width `w`, `none`
  is the abort;
- `f32`/`f64` values are modelled by their IEEE-754 bit patterns, and
  Rust's `as` integer-to-float cast by an explicit round-to-nearest-even
  conversion producing those bit patterns;
- the `V128` untagged union is modelled by its 128-bit storage contents
  (a `Nat` below `2 ^ 128`), with byte / 64-bit-lane views related by the
  little-endian layout of the compilation targets the crate supports.
-/

namespace Wasm2IR

/-- The engine's value-type category enumeration (`enum ValueType` in
`src/wasm/types.rs`), with the two administrative markers `None` (absence)
and `Any` (wildcard) alongside the 7 concrete categories. -/
inductive ValueType where
  | None
  | Any
  | I32
  | I64
  | F32
  | F64
  | V128
  | AnyRef
  | AnyFunc
  | NullRef
  deriving DecidableEq, Repr, Fintype

/-- The numeric ordinal each category carries in the source enumeration
(`None = 0, Any = 1, ..., NullRef = 9`). -/
def ValueType.ordinal : ValueType → Nat
  | .None => 0
  | .Any => 1
  | .I32 => 2
  | .I64 => 3
  | .F32 => 4
  | .F64 => 5
  | .V128 => 6
  | .AnyRef => 7
  | .AnyFunc => 8
  | .NullRef => 9

/-- `ValueType::LENGTH`. -/
def ValueType.LENGTH : Nat := 10

/-- `impl Default for ValueType`: the default category is `ValueType::None`. -/
def ValueType.default : ValueType := ValueType.None

/-- `ValueType::get_bytes`. The source matches on the 7 concrete
categories and hits `unreachable!()` (process abort) otherwise; the abort
is modelled as `none`, a normal width return as `some`. -/
def ValueType.get_bytes : ValueType → Option Nat
  | .I32 | .F32 => some 4
  | .I64 | .F64 => some 8
  | .V128 => some 16
  | .AnyFunc | .AnyRef | .NullRef => some 8
  | _ => none

/-- The external parser's scalar value-type element
(`parity_wasm::elements::ValueType`): the five scalar categories a WASM
binary can declare. -/
inductive PValueType where
  | I32
  | I64
  | F32
  | F64
  | V128
  deriving DecidableEq, Repr, Fintype

/-- `impl From<parity_wasm::elements::ValueType> for ValueType`. -/
def ValueType.fromP : PValueType → ValueType
  | .F32 => .F32
  | .F64 => .F64
  | .I32 => .I32
  | .I64 => .I64
  | .V128 => .V128

/-- The external parser's block-result-type element (`BlockType`): either
no result or a result carrying one scalar value type. -/
inductive BlockType where
  | Value (v : PValueType)
  | NoResult
  deriving DecidableEq, Repr

/-- `impl From<BlockType> for ValueType`. -/
def ValueType.fromBlock : BlockType → ValueType
  | .Value v => ValueType.fromP v
  | .NoResult => .None

/-- Fuelled floor of log base 2 (`flog2Aux fuel n` halves `n` until it
reaches 1; `fuel ≥ n` suffices since `n` at least halves each step). -/
def flog2Aux : Nat → Nat → Nat
  | 0, _ => 0
  | fuel + 1, n => if n ≤ 1 then 0 else flog2Aux fuel (n / 2) + 1

/-- Floor of log base 2: the exponent `e` with `2 ^ e ≤ n < 2 ^ (e + 1)`
for `n ≥ 1` (structurally recursive so the kernel can evaluate it). -/
def flog2 (n : Nat) : Nat := flog2Aux n n

/-- IEEE-754 binary32 bit pattern of the nonnegative integer `v` under
round-to-nearest-ties-to-even: the semantics of Rust's `v as f32` cast
for `u32` inputs (no `u32` reaches the infinity range of binary32). -/
def natAsF32bits (v : Nat) : Nat :=
  if v = 0 then 0
  else
    let e := flog2 v
    if e ≤ 23 then
      (e + 127) * 2 ^ 23 + (v * 2 ^ (23 - e) - 2 ^ 23)
    else
      let s := e - 23
      let q := v / 2 ^ s
      let r := v % 2 ^ s
      let half := 2 ^ (s - 1)
      let q2 := if half < r ∨ (r = half ∧ q % 2 = 1) then q + 1 else q
      if q2 = 2 ^ 24 then (e + 128) * 2 ^ 23
      else (e + 127) * 2 ^ 23 + (q2 - 2 ^ 23)

/-- IEEE-754 binary64 bit pattern of the nonnegative integer `v` under
round-to-nearest-ties-to-even: the semantics of Rust's `v as f64` cast
for `u64` inputs (every `u64` is finite in binary64 range). -/
def natAsF64bits (v : Nat) : Nat :=
  if v = 0 then 0
  else
    let e := flog2 v
    if e ≤ 52 then
      (e + 1023) * 2 ^ 52 + (v * 2 ^ (52 - e) - 2 ^ 52)
    else
      let s := e - 52
      let q := v / 2 ^ s
      let r := v % 2 ^ s
      let half := 2 ^ (s - 1)
      let q2 := if half < r ∨ (r = half ∧ q % 2 = 1) then q + 1 else q
      if q2 = 2 ^ 53 then (e + 1024) * 2 ^ 52
      else (e + 1023) * 2 ^ 52 + (q2 - 2 ^ 52)

/-- The `F32` wrapper (`pub struct F32(pub f32)`), the float represented
by its binary32 bit pattern. -/
structure F32 where
  bits : Nat
  deriving DecidableEq, Repr

/-- `impl From<u32> for F32`: the source computes `F32(v as f32)`, a
numeric value cast of the unsigned integer. -/
def F32.from_u32 (v : Nat) : F32 := ⟨natAsF32bits v⟩

/-- The `F64` wrapper (`pub struct F64(pub f64)`), the float represented
by its binary64 bit pattern. -/
structure F64 where
  bits : Nat
  deriving DecidableEq, Repr

/-- `impl From<u64> for F64`: the source computes `F64(v as f64)`, a
numeric value cast of the unsigned integer. -/
def F64.from_u64 (v : Nat) : F64 := ⟨natAsF64bits v⟩

/-- The 128-bit SIMD value (`pub union V128`): 16 bytes of untagged
storage, modelled by the natural number its 128 bits denote. -/
structure V128 where
  bits : Nat
  deriving DecidableEq, Repr

/-- Little-endian value of a byte list (first byte least significant),
the layout under which the union's `u8x16` and `u64x2` fields alias on
the crate's little-endian targets. -/
def bytesToNatLE (l : List Nat) : Nat :=
  l.foldr (fun b acc => b + 256 * acc) 0

/-- `V128::zero()`: the all-zero-bits value (`i8x16: [0; 16]`). -/
def V128.zero : V128 := ⟨bytesToNatLE (List.replicate 16 0)⟩

/-- `impl From<Box<[u8; 16]>> for V128`: verbatim bit copy of the
16-byte buffer into the union's storage. -/
def V128.fromBytes (b : List Nat) : V128 := ⟨bytesToNatLE b⟩

/-- `V128::into_u64x2`: read the storage as two 64-bit lanes (the union's
`u64x2` field); lane 0 is the low-order 8 bytes, lane 1 the high-order 8
bytes under the little-endian layout. -/
def V128.into_u64x2 (v : V128) : Nat × Nat :=
  (v.bits % 2 ^ 64, v.bits / 2 ^ 64)

/-- The external parser's global declaration
(`parity_wasm::elements::GlobalType`): a content type and a mutability
flag, read through its `content_type()` / `is_mutable()` accessors. -/
structure PGlobalType where
  content_type : PValueType
  is_mutable : Bool
  deriving DecidableEq, Repr, Fintype

/-- The engine's `GlobalType` descriptor. -/
structure GlobalType where
  mutable : Bool
  ty : ValueType
  deriving DecidableEq, Repr

/-- `impl From<parity_wasm::elements::GlobalType> for GlobalType`. -/
def GlobalType.fromParsed (v : PGlobalType) : GlobalType :=
  { mutable := v.is_mutable, ty := ValueType.fromP v.content_type }

/-- `GlobalType::value_type`. -/
def GlobalType.value_type (g : GlobalType) : ValueType := g.ty

/-- `GlobalType::is_mutable`. -/
def GlobalType.is_mutable (g : GlobalType) : Bool := g.mutable

/-- The engine's `FunctionType` descriptor. -/
structure FunctionType where
  res : Option ValueType
  params : List ValueType
  deriving DecidableEq, Repr

/-- `FunctionType::new`: direct constructor from explicit params/result. -/
def FunctionType.new (params : List ValueType) (res : Option ValueType) :
    FunctionType :=
  { res := res, params := params }

/-- The external parser's function signature
(`parity_wasm::elements::FunctionType`), read through `params()` and
`return_type()`. -/
structure PFunctionType where
  params : List PValueType
  return_type : Option PValueType
  deriving DecidableEq, Repr

/-- `impl From<parity_wasm::elements::FunctionType> for FunctionType`. -/
def FunctionType.fromParsed (f : PFunctionType) : FunctionType :=
  { res := match f.return_type with
      | some r => some (ValueType.fromP r)
      | none => none
    params := f.params.map ValueType.fromP }

/-- The external parser's memory-limits record
(`parity_wasm::elements::ResizableLimits`), read through `initial()`,
`maximum()` and `shared()`. -/
structure PLimits where
  initial : Nat
  maximum : Option Nat
  shared : Bool
  deriving DecidableEq, Repr

/-- The external parser's memory declaration
(`parity_wasm::elements::MemoryType`), exposing its limits record. -/
structure PMemoryType where
  limits : PLimits
  deriving DecidableEq, Repr

/-- The engine's `MemoryType` descriptor. -/
structure MemoryType where
  min : Nat
  max : Option Nat
  shared : Bool
  deriving DecidableEq, Repr

/-- `impl From<parity_wasm::elements::MemoryType> for MemoryType`: copies
the three limit fields with no validation. -/
def MemoryType.fromParsed (m : PMemoryType) : MemoryType :=
  { min := m.limits.initial, max := m.limits.maximum
    shared := m.limits.shared }

/-- `MemoryType::min_pages`. -/
def MemoryType.min_pages (m : MemoryType) : Nat := m.min

/-- `MemoryType::max_pages`. -/
def MemoryType.max_pages (m : MemoryType) : Option Nat := m.max

/-- `MemoryType::is_shared`. -/
def MemoryType.is_shared (m : MemoryType) : Bool := m.shared


/-- C1: for every concrete `ValueType` category `get_bytes` returns the
spec-fixed byte width: 4 for `I32`/`F32`, 8 for `I64`/`F64` and the three
reference categories `AnyFunc`/`AnyRef`/`NullRef`, and 16 for `V128`. -/
theorem get_bytes_concrete_widths :
    ValueType.get_bytes .I32 = some 4 ∧ ValueType.get_bytes .F32 = some 4 ∧
    ValueType.get_bytes .I64 = some 8 ∧ ValueType.get_bytes .F64 = some 8 ∧
    ValueType.get_bytes .AnyFunc = some 8 ∧
    ValueType.get_bytes .AnyRef = some 8 ∧
    ValueType.get_bytes .NullRef = some 8 ∧
    ValueType.get_bytes .V128 = some 16 := by
  decide

/-- C2: `get_bytes` aborts (modelled as `none`) exactly on the two
non-concrete categories `None` and `Any`; on every category satisfying
the precondition of being one of the 7 concrete ones it returns a width,
so the abort branch is unreachable under the precondition, and on
`None`/`Any` it aborts rather than silently returning a number. -/
theorem get_bytes_abort_iff_nonconcrete :
    ∀ t : ValueType, t.get_bytes = none ↔ t = .None ∨ t = .Any := by
  decide

/-- C3: converting any parsed memory declaration (no validation, so also
one with maximum smaller than initial) copies its fields verbatim:
`min_pages` is the initial limit, `max_pages` the optional maximum,
`is_shared` the shared flag; in particular min=1, max=10, shared=false
converts to `min_pages = 1`, `max_pages = some 10`, `is_shared = false`,
and min=5, max=2 also converts, returning its fields unchanged. -/
theorem memory_conversion_preserves_fields :
    (∀ d : PMemoryType,
        (MemoryType.fromParsed d).min_pages = d.limits.initial ∧
        (MemoryType.fromParsed d).max_pages = d.limits.maximum ∧
        (MemoryType.fromParsed d).is_shared = d.limits.shared) ∧
    (MemoryType.fromParsed ⟨⟨1, some 10, false⟩⟩).min_pages = 1 ∧
    (MemoryType.fromParsed ⟨⟨1, some 10, false⟩⟩).max_pages = some 10 ∧
    (MemoryType.fromParsed ⟨⟨1, some 10, false⟩⟩).is_shared = false ∧
    (MemoryType.fromParsed ⟨⟨5, some 2, false⟩⟩).min_pages = 5 ∧
    (MemoryType.fromParsed ⟨⟨5, some 2, false⟩⟩).max_pages = some 2 :=
  ⟨fun _ => ⟨rfl, rfl, rfl⟩, rfl, rfl, rfl, rfl, rfl⟩

/-- C4: the `u32 → F32` and `u64 → F64` conversions are numeric value
casts, not bit reinterpretations: converting the integer 1 yields the
float 1.0 (bit pattern `0x3F800000` for binary32, `0x3FF0000000000000`
for binary64), whose bit pattern differs from the input bit pattern 1. -/
theorem int_to_float_is_value_cast :
    F32.from_u32 1 = ⟨0x3F800000⟩ ∧ (F32.from_u32 1).bits ≠ 1 ∧
    F64.from_u64 1 = ⟨0x3FF0000000000000⟩ ∧ (F64.from_u64 1).bits ≠ 1 := by
  decide

/-- C5: converting any parsed global declaration preserves the mutability
flag and converts the content type, and the resulting value type is never
the absence or wildcard category; in particular a mutable 32-bit-integer
global converts to `is_mutable = true` with value type `I32`. -/
theorem global_conversion_preserves_and_concrete :
    (∀ g : PGlobalType,
        (GlobalType.fromParsed g).is_mutable = g.is_mutable ∧
        (GlobalType.fromParsed g).value_type =
          ValueType.fromP g.content_type ∧
        (GlobalType.fromParsed g).value_type ≠ .None ∧
        (GlobalType.fromParsed g).value_type ≠ .Any) ∧
    (GlobalType.fromParsed ⟨.I32, true⟩).is_mutable = true ∧
    (GlobalType.fromParsed ⟨.I32, true⟩).value_type = .I32 := by
  decide

/-- C6: the block-result-type conversion maps `NoResult` to the absence
category `None` and `Value v` to the scalar conversion of `v`; in
particular a block result carrying a 32-bit integer maps to `I32`. -/
theorem block_result_conversion :
    ValueType.fromBlock .NoResult = .None ∧
    (∀ v : PValueType, ValueType.fromBlock (.Value v) = ValueType.fromP v) ∧
    ValueType.fromBlock (.Value .I32) = .I32 :=
  ⟨rfl, fun _ => rfl, rfl⟩

/-- C7: the scalar value-type conversion is total (a total function on
the five parser elements, witnessed by mapping each to its same-named
category) and injective, and its result is never `None` or `Any`. -/
theorem scalar_conversion_total_injective :
    (∀ a b : PValueType, ValueType.fromP a = ValueType.fromP b ↔ a = b) ∧
    (∀ a : PValueType,
        ValueType.fromP a ≠ .None ∧ ValueType.fromP a ≠ .Any) ∧
    ValueType.fromP .I32 = .I32 ∧ ValueType.fromP .I64 = .I64 ∧
    ValueType.fromP .F32 = .F32 ∧ ValueType.fromP .F64 = .F64 ∧
    ValueType.fromP .V128 = .V128 := by
  decide

/-- C8: `FunctionType.new ps r` stores the parameter list and optional
result exactly as supplied, so the accessors return `ps` (same elements,
same order) and `r`; in particular `new [I32, I64] (some F64)` has
params `[I32, I64]` and result `some F64`. -/
theorem function_type_new_preserves :
    (∀ (ps : List ValueType) (r : Option ValueType),
        (FunctionType.new ps r).params = ps ∧
        (FunctionType.new ps r).res = r) ∧
    (FunctionType.new [.I32, .I64] (some .F64)).params = [.I32, .I64] ∧
    (FunctionType.new [.I32, .I64] (some .F64)).res = some .F64 :=
  ⟨fun _ _ => ⟨rfl, rfl⟩, rfl, rfl⟩

/-- C9: `V128.zero` read as two 64-bit lanes is `(0, 0)`, and the verbatim
bit copy of a 16-byte buffer of all `0xFF` bytes read as two 64-bit lanes
is `(u64 max, u64 max)`, i.e. both lanes `2 ^ 64 - 1`. -/
theorem v128_zero_and_ff_lanes :
    V128.zero.into_u64x2 = (0, 0) ∧
    (V128.fromBytes (List.replicate 16 255)).into_u64x2 =
      (2 ^ 64 - 1, 2 ^ 64 - 1) := by
  decide

/-- C10: `ValueType` has a default value and it is the absence category
`None`, one of the two non-concrete categories on which `get_bytes`
aborts. -/
theorem default_value_is_absence :
    ValueType.default = ValueType.None ∧
    ValueType.get_bytes ValueType.default = none ∧
    (ValueType.default = ValueType.None ∨ ValueType.default = .Any) := by
  decide

end Wasm2IR
